/-
Verification of the Policy-Dissection quadrupedal locomotion task layer:
a shallow embedding of `GoalTask` (goal_task.py), the environment sensors
(environment_sensors.py) and the experiment driver
(ppo_nature_cnn_sim2sim.py), with theorems about reward composition,
termination, subgoal bookkeeping, sensor binding and configuration
aliasing.

Python floats are modelled as real numbers; Python ints as `Int`/`Nat`.
-/
import Mathlib

namespace PolicyDissect

open scoped Classical

/-! ## Vectors

3-vectors (base positions, speeds) and 4-vectors (quaternions), over ℝ. -/

structure Vec3 where
  x : ℝ
  y : ℝ
  z : ℝ

structure Vec4 where
  x : ℝ
  y : ℝ
  z : ℝ
  w : ℝ

/-- Componentwise difference of two 3-vectors. -/
def Vec3.sub (a b : Vec3) : Vec3 := ⟨a.x - b.x, a.y - b.y, a.z - b.z⟩

/-- Euclidean norm of a 3-vector (`np.linalg.norm` on a 3-array). -/
noncomputable def norm3 (v : Vec3) : ℝ := Real.sqrt (v.x ^ 2 + v.y ^ 2 + v.z ^ 2)

/-- Euclidean norm of a 2-vector (`np.linalg.norm` on a 2-array). -/
noncomputable def norm2 (x y : ℝ) : ℝ := Real.sqrt (x ^ 2 + y ^ 2)

/-- Dot product of two equal-length float arrays (`np.dot`). -/
def dotList : List ℝ → List ℝ → ℝ
  | a :: as, b :: bs => a * b + dotList as bs
  | _, _ => 0

/-! ## Environment state read by `GoalTask`

`GoalTask` reads the bound environment through the pybullet client and the
robot object.  Each read is modelled as a field: `basePos` is
`env.robot.GetBasePosition()`, `rootPosSim` is the position part of
`pyb.getBasePositionAndOrientation(env.robot.quadruped)`, `baseQuat` is
`env.robot.GetBaseOrientation()`, `rotMatUp` is the last entry of
`pyb.getMatrixFromQuaternion(rot_quat)` (pybullet is an external library,
so the matrix entry is an uninterpreted reading), `motorTorques` is
`env.robot.GetMotorTorques()`, `contacts` is
`pyb.getContactPoints(bodyA=env.robot.quadruped)`, and the `world_dict`
entries and `robot._foot_link_ids` appear under their own names.
`subgoalsAchieved` is the mutable `world_dict['subgoals_achieved']` list. -/

/-- One pybullet contact point: `contact[2]` (the other body's id) and
`contact[3]` (the link index on body A). -/
structure Contact where
  bodyB : ℕ
  linkA : ℤ

structure Env where
  basePos : Vec3
  rootPosSim : Vec3
  baseQuat : Vec4
  rotMatUp : ℝ
  motorTorques : List ℝ
  contacts : List Contact
  ground : ℕ
  terrain : Option ℕ
  footLinkIds : List ℤ
  goalPos : Vec3
  subgoals : List Vec3
  subgoalsAchieved : List Bool

/-! ## `GoalTask`

`GoalTaskCfg` holds every attribute assigned in `GoalTask.__init__`
(constructor arguments together with the hard-coded attributes
`energy_weight = -0.005`, `move_forward_coeff = 1`,
`init_orientation = [0, 0, 0, 1]`).  `target_vel` defaults to `None` in
Python but every claim concerns a task with a numeric target velocity, so
it is modelled as a real number.  The mutable episode state
(`last_base_pos`, `current_base_pos`, written by `reset`/`update`) lives in
`GoalTaskState`; the environment binding `self._env` (set by `reset`) is
passed explicitly to each method. -/

structure GoalTaskCfg where
  z_constrain : Bool
  other_direction_penalty : ℝ
  z_penalty : ℝ
  orientation_penalty : ℝ
  time_step_s : ℝ
  num_action_repeat : ℕ
  height_fall_coeff : ℝ
  alive_reward : ℝ
  fall_reward : ℝ
  target_vel : ℝ
  check_contact : Bool
  goal_coeff : ℝ
  subgoal : Bool
  energy_weight : ℝ
  move_forward_coeff : ℝ
  init_orientation : Option Vec4

/-- `GoalTask.__init__`: the constructor arguments, with the hard-coded
attribute assignments from the body of `__init__`. -/
def GoalTaskCfg.init (z_constrain : Bool) (other_direction_penalty z_penalty
    orientation_penalty time_step_s : ℝ) (num_action_repeat : ℕ)
    (height_fall_coeff alive_reward fall_reward target_vel : ℝ)
    (check_contact : Bool) (goal_coeff : ℝ) (subgoal : Bool) : GoalTaskCfg where
  z_constrain := z_constrain
  other_direction_penalty := other_direction_penalty
  z_penalty := z_penalty
  orientation_penalty := orientation_penalty
  time_step_s := time_step_s
  num_action_repeat := num_action_repeat
  height_fall_coeff := height_fall_coeff
  alive_reward := alive_reward
  fall_reward := fall_reward
  target_vel := target_vel
  check_contact := check_contact
  goal_coeff := goal_coeff
  subgoal := subgoal
  energy_weight := -0.005
  move_forward_coeff := 1
  init_orientation := some ⟨0, 0, 0, 1⟩

/-- The mutable position pair kept on the task object. -/
structure GoalTaskState where
  last_base_pos : Vec3
  current_base_pos : Vec3

/-- `GoalTask.reset`: both positions become the robot's current base
position. -/
def GoalTask.reset (env : Env) : GoalTaskState :=
  { last_base_pos := env.basePos, current_base_pos := env.basePos }

/-- `GoalTask.update`: `current` shifts into `last`, the robot's base
position becomes `current`. -/
def GoalTask.update (st : GoalTaskState) (env : Env) : GoalTaskState :=
  { last_base_pos := st.current_base_pos, current_base_pos := env.basePos }

/-- Elapsed real time per control step: `self._time_step * self.num_action_repeat`. -/
def GoalTaskCfg.dt (cfg : GoalTaskCfg) : ℝ := cfg.time_step_s * cfg.num_action_repeat

/-- The speed estimate used by `done` under contact checking:
`(current_base_pos - last_base_pos) / (time_step * num_action_repeat)`,
a full 3-vector. -/
noncomputable def GoalTask.speedVec (cfg : GoalTaskCfg) (st : GoalTaskState) : Vec3 :=
  ⟨(st.current_base_pos.x - st.last_base_pos.x) / cfg.dt,
   (st.current_base_pos.y - st.last_base_pos.y) / cfg.dt,
   (st.current_base_pos.z - st.last_base_pos.z) / cfg.dt⟩

/-- First contact loop of `GoalTask.done`: some contact with the ground
body (or the terrain body, when the world has one) touches a link that is
not a foot link. -/
def GoalTask.contactLoop1 (env : Env) : Prop :=
  ∃ c ∈ env.contacts,
    (c.bodyB = env.ground ∨ ∃ t, env.terrain = some t ∧ c.bodyB = t) ∧
    c.linkA ∉ env.footLinkIds

/-- Second contact loop of `GoalTask.done`: some contact is with a body
other than the ground. -/
def GoalTask.contactLoop2 (env : Env) : Prop :=
  ∃ c ∈ env.contacts, c.bodyB ≠ env.ground

/-- `GoalTask.done`.  `height_fall` is `root_pos_sim[2] < height_fall_coeff`,
widened to an upper bound of `0.8` under `z_constrain`; `rot_fall` is
`rot_mat[-1] < 0.6`; under `check_contact` the two contact loops are
combined with the low-speed test `‖speed‖ ≤ 0.05`. -/
noncomputable def GoalTask.done (cfg : GoalTaskCfg) (st : GoalTaskState) (env : Env) : Prop :=
  let rot_fall := env.rotMatUp < 0.6
  let height_fall :=
    if cfg.z_constrain then
      env.rootPosSim.z < cfg.height_fall_coeff ∨ env.rootPosSim.z > 0.8
    else
      env.rootPosSim.z < cfg.height_fall_coeff
  let contact_done :=
    if cfg.check_contact then
      (GoalTask.contactLoop1 env ∨ GoalTask.contactLoop2 env) ∧
        norm3 (GoalTask.speedVec cfg st) ≤ 0.05
    else False
  height_fall ∨ rot_fall ∨ contact_done

/-- `GoalTask._calc_reward_goal_dist`: progress of the distance to
`world_dict['goal_pos']`, per second. -/
noncomputable def GoalTask.calcRewardGoalDist (cfg : GoalTaskCfg) (st : GoalTaskState)
    (env : Env) : ℝ :=
  let last_dist := norm3 (env.goalPos.sub st.last_base_pos)
  let current_dist := norm3 (env.goalPos.sub st.current_base_pos)
  (last_dist - current_dist) / cfg.dt

/-- The recursion inside `GoalTask._calc_reward_subgoal`: walk the subgoal
positions and the parallel `subgoals_achieved` flags; a subgoal within
distance `1.0` of the current base position whose flag is unset adds `5`
to the reward and sets its flag.  (The Python loop assumes the two lists
have equal length.)  Returns the reward and the updated flag list. -/
noncomputable def GoalTask.subgoalWalk (pos : Vec3) :
    List Vec3 → List Bool → ℝ × List Bool
  | p :: ps, a :: as =>
    let rest := GoalTask.subgoalWalk pos ps as
    if norm3 (pos.sub p) < 1.0 then
      if a then (rest.1, a :: rest.2)
      else (rest.1 + 5, true :: rest.2)
    else
      (rest.1, a :: rest.2)
  | [], as => (0, as)
  | _ :: _, [] => (0, [])

/-- `GoalTask._calc_reward_subgoal`: returns the bonus and the mutated
`world_dict['subgoals_achieved']` list. -/
noncomputable def GoalTask.calcRewardSubgoal (st : GoalTaskState) (env : Env) :
    ℝ × List Bool :=
  GoalTask.subgoalWalk st.current_base_pos env.subgoals env.subgoalsAchieved

/-- The x speed computed inside `GoalTask._calc_reward_root_velocity`. -/
noncomputable def GoalTask.xSpeed (cfg : GoalTaskCfg) (st : GoalTaskState) : ℝ :=
  (st.current_base_pos.x - st.last_base_pos.x) / (cfg.time_step_s * cfg.num_action_repeat)

/-- The y speed computed inside `GoalTask._calc_reward_root_velocity`. -/
noncomputable def GoalTask.ySpeed (cfg : GoalTaskCfg) (st : GoalTaskState) : ℝ :=
  (st.current_base_pos.y - st.last_base_pos.y) / (cfg.time_step_s * cfg.num_action_repeat)

/-- The z speed computed inside `GoalTask._calc_reward_root_velocity`. -/
noncomputable def GoalTask.zSpeed (cfg : GoalTaskCfg) (st : GoalTaskState) : ℝ :=
  (st.current_base_pos.z - st.last_base_pos.z) / (cfg.time_step_s * cfg.num_action_repeat)

/-- `GoalTask._calc_reward_root_velocity`.  The horizontal speed magnitude
is clipped from above at `target_vel` (`np.clip` with `a_min=None`), the
quadratic term `target_vel² - (xy_speed - target_vel)²` is the along-track
reward, and `z_penalty` scales a squared-vertical-speed penalty. -/
noncomputable def GoalTask.calcRewardRootVelocity (cfg : GoalTaskCfg)
    (st : GoalTaskState) : ℝ :=
  let xy_speed := norm2 (GoalTask.xSpeed cfg st) (GoalTask.ySpeed cfg st)
  let xy_speed := min xy_speed cfg.target_vel
  let along_reward := cfg.target_vel ^ 2 - (xy_speed - cfg.target_vel) ^ 2
  along_reward - cfg.z_penalty * (GoalTask.zSpeed cfg st) ^ 2

/-- `GoalTask._calc_reward_rotation`: squared componentwise distance of the
base quaternion from `init_orientation` (`0` when `init_orientation` is
`None`). -/
def GoalTask.calcRewardRotation (cfg : GoalTaskCfg) (env : Env) : ℝ :=
  match cfg.init_orientation with
  | none => 0
  | some q =>
    (q.x - env.baseQuat.x) ^ 2 + (q.y - env.baseQuat.y) ^ 2 +
      (q.z - env.baseQuat.z) ^ 2 + (q.w - env.baseQuat.w) ^ 2

/-- The energy term of `GoalTask.reward`:
`np.dot(torques, torques) * self._time_step`. -/
def GoalTask.energyReward (cfg : GoalTaskCfg) (env : Env) : ℝ :=
  dotList env.motorTorques env.motorTorques * cfg.time_step_s

/-- `GoalTask.reward`: the weighted sum of the sub-terms, plus
`fall_reward` when `done` holds at this step.  The subgoal computation
mutates `world_dict['subgoals_achieved']`, so the updated environment is
returned alongside the reward. -/
noncomputable def GoalTask.reward (cfg : GoalTaskCfg) (st : GoalTaskState) (env : Env) :
    ℝ × Env :=
  let energy_reward := GoalTask.energyReward cfg env
  let move_forward_reward := GoalTask.calcRewardRootVelocity cfg st
  let alive_reward := cfg.alive_reward
  let orientation_reward := GoalTask.calcRewardRotation cfg env
  let goal_reward := GoalTask.calcRewardGoalDist cfg st env
  let sub := GoalTask.calcRewardSubgoal st env
  let subgoal_reward := if cfg.subgoal then sub.1 else 0
  let env' := if cfg.subgoal then { env with subgoalsAchieved := sub.2 } else env
  let r := goal_reward * cfg.goal_coeff + move_forward_reward * cfg.move_forward_coeff +
    energy_reward * cfg.energy_weight - cfg.orientation_penalty * orientation_reward +
    alive_reward + subgoal_reward
  let r := if GoalTask.done cfg st env then r + cfg.fall_reward else r
  (r, env')

/-! ## Environment sensors (environment_sensors.py)

Each sensor stores `self._env`, initialized to `None` in the constructor
and bound by `on_reset`.  Accessing an attribute of the unbound `None`
environment raises `AttributeError` (modelled as `SensorError.bindingError`);
accessing an attribute that no method ever assigned, such as
`ForceSensor._robot`, also raises `AttributeError` (modelled as
`SensorError.missingAttribute`).  The base class `BoxSpaceSensor` is not
part of the given sources; modelled from the spec: each sensor "exposes a
fixed output shape, declared at construction", so the shape tuple passed
to the base constructor is kept as a `shape` field (its single dimension). -/

/-- What a bound sensor reads from the environment: `env.last_action`,
`env._robot.GetBasePosition()`, `env.world_dict["goal_pos"]`, and the
pybullet joint-state reading used by `ForceSensor`.  Modelled from the
spec: the force entry of a joint state is a "per-foot contact-force
vector (fixed 4-feet × 3-axis layout)", so `jointForce body joint` is a
3-vector. -/
structure SensorEnv where
  last_action : List ℝ
  robotBasePos : Vec3
  goalPos : Vec3
  jointForce : ℕ → ℕ → Vec3

/-- The robot object a sensor would read (`self._robot.quadruped`). -/
structure Robot where
  quadruped : ℕ

/-- The two `AttributeError` failure modes of an observation pull. -/
inductive SensorError where
  | bindingError
  | missingAttribute
deriving DecidableEq

/-- A 3-vector as the flat float array numpy would produce. -/
def vec3ToList (v : Vec3) : List ℝ := [v.x, v.y, v.z]

structure LastActionSensor where
  num_actions : ℕ
  env : Option SensorEnv
  shape : ℕ

/-- `LastActionSensor.__init__`: `self._env = None`, declared shape
`(num_actions,)`. -/
def LastActionSensor.init (num_actions : ℕ) : LastActionSensor :=
  { num_actions := num_actions, env := none, shape := num_actions }

/-- `LastActionSensor.on_reset`: remember the environment. -/
def LastActionSensor.onReset (s : LastActionSensor) (e : SensorEnv) : LastActionSensor :=
  { s with env := some e }

/-- `LastActionSensor._get_observation`: `self._env.last_action`. -/
def LastActionSensor.getObservation (s : LastActionSensor) :
    Except SensorError (List ℝ) :=
  match s.env with
  | none => .error .bindingError
  | some e => .ok e.last_action

structure GoalPosSensor where
  goal_dim : ℕ
  env : Option SensorEnv
  shape : ℕ

/-- `GoalPosSensor.__init__`: `self._env = None`, declared shape
`(goal_dim * 2,)`. -/
def GoalPosSensor.init (goal_dim : ℕ) : GoalPosSensor :=
  { goal_dim := goal_dim, env := none, shape := goal_dim * 2 }

/-- `GoalPosSensor.on_reset`: remember the environment. -/
def GoalPosSensor.onReset (s : GoalPosSensor) (e : SensorEnv) : GoalPosSensor :=
  { s with env := some e }

/-- `GoalPosSensor._get_observation`: concatenation of the robot base
position and `world_dict["goal_pos"]`. -/
def GoalPosSensor.getObservation (s : GoalPosSensor) :
    Except SensorError (List ℝ) :=
  match s.env with
  | none => .error .bindingError
  | some e => .ok (vec3ToList e.robotBasePos ++ vec3ToList e.goalPos)

structure ForceSensor where
  env : Option SensorEnv
  robot : Option Robot
  feet_id : List ℕ
  shape : ℕ

/-- `ForceSensor.__init__`: `self._env = None`,
`self.feet_id = [2 + 3 * i for i in range(4)]`, declared shape `(24,)`
(the `goal_dim=24` argument is unused).  `self._robot` is never assigned
anywhere in the class, so it starts — and stays — absent (`none`). -/
def ForceSensor.init : ForceSensor :=
  { env := none
    robot := none
    feet_id := (List.range 4).map (fun i => 2 + 3 * i)
    shape := 24 }

/-- `ForceSensor.on_reset`: remember the environment (and nothing else —
in particular `self._robot` is not assigned). -/
def ForceSensor.onReset (s : ForceSensor) (e : SensorEnv) : ForceSensor :=
  { s with env := some e }

/-- The concatenation `ForceSensor._get_observation` builds once its
attribute reads succeed: the four feet's 3-axis forces, flattened. -/
def forceConcat (e : SensorEnv) (r : Robot) (feet : List ℕ) : List ℝ :=
  (feet.map (fun j => vec3ToList (e.jointForce r.quadruped j))).flatten

/-- `ForceSensor._get_observation`: `self._env._pybullet_client` is read
first (binding error when `self._env` is `None`), then the argument
`self._robot.quadruped` is evaluated (`AttributeError`: `_robot` is never
assigned), and only then could the forces be concatenated. -/
def ForceSensor.getObservation (s : ForceSensor) : Except SensorError (List ℝ) :=
  match s.env with
  | none => .error .bindingError
  | some e =>
    match s.robot with
    | none => .error .missingAttribute
    | some r => .ok (forceConcat e r s.feet_id)

/-- The operations the sensor API offers after construction (`on_reset`
once per episode; observation pulls do not mutate the sensor). -/
inductive SensorOp where
  | onReset (e : SensorEnv)

/-- Run a sequence of API operations on a `ForceSensor`. -/
def ForceSensor.runOps (s : ForceSensor) : List SensorOp → ForceSensor
  | [] => s
  | SensorOp.onReset e :: ops => (s.onReset e).runOps ops

/-! ## Experiment driver (ppo_nature_cnn_sim2sim.py) -/

/-- The number of parallel instances `experiment` passes to
`get_subprocvec_env` for the evaluation environment: `max(2, args.vec_env_nums)`. -/
def evalVecEnvNums (vec_env_nums : ℤ) : ℤ := max 2 vec_env_nums

/-- The number of worker processes `experiment` passes to
`get_subprocvec_env` for the evaluation environment: `max(2, args.proc_nums)`. -/
def evalProcNums (proc_nums : ℤ) : ℤ := max 2 proc_nums

/-! ## A heap model for the nested configuration mappings

`params = get_params(args.config)` is a nested Python dict;
`eval_params = params.copy()` is a *shallow* copy, so the values — in
particular the reference stored under `"env"` — are shared between the
two dicts.  Dicts live on a heap of addresses; a dict maps string keys to
values, where a value is an int, a bool, or a reference to another dict. -/

inductive PyVal where
  | vint (n : ℤ)
  | vbool (b : Bool)
  | vref (a : ℕ)
deriving DecidableEq

/-- A Python dict's own storage: an association list of keys to values. -/
abbrev PyDict := List (String × PyVal)

/-- `d[k]` lookup inside one dict. -/
def dictGet : PyDict → String → Option PyVal
  | [], _ => none
  | (k', v) :: rest, k => if k' = k then some v else dictGet rest k

/-- `d[k] = v` on one dict: overwrite the key or append it. -/
def dictSet : PyDict → String → PyVal → PyDict
  | [], k, v => [(k, v)]
  | (k', v') :: rest, k, v =>
    if k' = k then (k', v) :: rest else (k', v') :: dictSet rest k v

/-- `k in d`. -/
def dictHasKey (d : PyDict) (k : String) : Bool := (dictGet d k).isSome

/-- The heap: dict contents per address, plus the next fresh address. -/
structure Heap where
  mem : List (ℕ × PyDict)
  next : ℕ

/-- Look an address up in the heap's association list. -/
def assocRead : List (ℕ × PyDict) → ℕ → Option PyDict
  | [], _ => none
  | (b, d) :: rest, a => if b = a then some d else assocRead rest a

/-- Replace the dict stored at an address in the association list. -/
def assocWrite : List (ℕ × PyDict) → ℕ → PyDict → List (ℕ × PyDict)
  | [], _, _ => []
  | (b, d') :: rest, a, d =>
    if b = a then (a, d) :: rest else (b, d') :: assocWrite rest a d

/-- Dereference an address. -/
def Heap.read (h : Heap) (a : ℕ) : Option PyDict :=
  assocRead h.mem a

/-- Overwrite the dict stored at an (existing) address. -/
def Heap.write (h : Heap) (a : ℕ) (d : PyDict) : Heap :=
  { h with mem := assocWrite h.mem a d }

/-- Allocate a fresh dict, returning its address. -/
def Heap.alloc (h : Heap) (d : PyDict) : Heap × ℕ :=
  ({ mem := (h.next, d) :: h.mem, next := h.next + 1 }, h.next)

/-- Every allocated address is below `next`, and addresses are unique. -/
def Heap.WF (h : Heap) : Prop :=
  (∀ p ∈ h.mem, p.1 < h.next) ∧ (h.mem.map (·.1)).Nodup

/-- `d.copy()`: a *shallow* copy — a fresh dict whose association list
holds the very same values (references included) as the source dict. -/
def Heap.copyDict (h : Heap) (a : ℕ) : Option (Heap × ℕ) :=
  (h.read a).map (fun d => h.alloc d)

/-- `h[a][k]`: read a key of the dict at address `a`. -/
def Heap.getItem (h : Heap) (a : ℕ) (k : String) : Option PyVal :=
  (h.read a).bind (fun d => dictGet d k)

/-- Read a key expected to hold a dict reference (`d[k]` where the value
is itself a dict). -/
def Heap.getRefItem (h : Heap) (a : ℕ) (k : String) : Option ℕ :=
  match h.getItem a k with
  | some (PyVal.vref b) => some b
  | _ => none

/-- `h[a][k] = v`: mutate the dict at address `a` in place. -/
def Heap.setItem (h : Heap) (a : ℕ) (k : String) (v : PyVal) : Option Heap :=
  (h.read a).map (fun d => h.write a (dictSet d k v))

/-- Python `v > 1` for a dict value: ints compare numerically, bools as
`0`/`1`; comparing a dict to an int is a `TypeError` (`none`). -/
def pyGtOne : PyVal → Option Bool
  | PyVal.vint n => some (1 < n)
  | PyVal.vbool b => some (1 < (if b then 1 else 0 : ℤ))
  | PyVal.vref _ => none

/-- Python `v == 1` for a dict value (never raises; a dict is not `1`). -/
def pyEqOne : PyVal → Bool
  | PyVal.vint n => n = 1
  | PyVal.vbool b => (if b then 1 else 0 : ℤ) = 1
  | PyVal.vref _ => false

/-- The `get_image_interval` branch of `experiment`:

* if `"get_image_interval" in build and build["get_image_interval"] > 1`:
  `build["frame_extract"] = build["get_image_interval"]`;
  `build["get_image_interval"] = 1`;
* elif the key is present, equal to `1`, and `build["frame_extract"] == 1`
  (a `KeyError` when `frame_extract` is absent): `build["frame_extract"] = 4`. -/
def imageIntervalBranch (h : Heap) (buildA : ℕ) : Option Heap :=
  match h.getItem buildA "get_image_interval" with
  | none => some h
  | some g =>
    match pyGtOne g with
    | none => none
    | some true => do
      let h1 ← h.setItem buildA "frame_extract" g
      h1.setItem buildA "get_image_interval" (PyVal.vint 1)
    | some false =>
      if pyEqOne g then
        match h.getItem buildA "frame_extract" with
        | none => none
        | some f => if pyEqOne f then h.setItem buildA "frame_extract" (PyVal.vint 4) else some h
      else some h

/-- `if key in build: build[key] = False` — the `curriculum`,
`interpolation` and `fixed_delay_observation` statements of `experiment`. -/
def disableIfPresent (h : Heap) (buildA : ℕ) (key : String) : Option Heap :=
  if dictHasKey ((h.read buildA).getD []) key then
    h.setItem buildA key (PyVal.vbool false)
  else some h

/-- The evaluation-setup statements of `experiment`, applied through
`eval_params` (the dict at `evalRoot`):

```
eval_params["env"]["env_build"]["reset_frame_idx_each_step"] = True
eval_params["env"]["horizon"] = 2000
<get_image_interval branch>
if "curriculum" in ...:            eval_params[...]["curriculum"] = False
if "interpolation" in ...:         eval_params[...]["interpolation"] = False
if "fixed_delay_observation" in ...: eval_params[...]["fixed_delay_observation"] = False
```

The lookups `eval_params["env"]` and `...["env_build"]` are evaluated per
statement in Python, but no statement assigns those two keys, so the
addresses they return never change; they are read once here.  A missing
key or address is a Python error (`none`). -/
def experimentEvalSetup (h : Heap) (evalRoot : ℕ) : Option Heap :=
  match h.getRefItem evalRoot "env" with
  | none => none
  | some envA =>
    match h.getRefItem envA "env_build" with
    | none => none
    | some buildA =>
      match h.setItem buildA "reset_frame_idx_each_step" (PyVal.vbool true) with
      | none => none
      | some h1 =>
        match h1.setItem envA "horizon" (PyVal.vint 2000) with
        | none => none
        | some h2 =>
          match imageIntervalBranch h2 buildA with
          | none => none
          | some h3 =>
            match disableIfPresent h3 buildA "curriculum" with
            | none => none
            | some h4 =>
              match disableIfPresent h4 buildA "interpolation" with
              | none => none
              | some h5 => disableIfPresent h5 buildA "fixed_delay_observation"

/-! ## Per-claim auxiliary definitions -/

/-- The bonus one subgoal contributes in a single `_calc_reward_subgoal`
call: `5` when the base is within distance `1.0` and the achieved flag is
unset, `0` otherwise. -/
noncomputable def GoalTask.perSubgoalBonus (pos p : Vec3) (a : Bool) : ℝ :=
  if norm3 (pos.sub p) < 1.0 ∧ a = false then 5 else 0

/-- The configuration with its simulator time step scaled by `c`
(everything else unchanged). -/
def GoalTaskCfg.scaleTime (cfg : GoalTaskCfg) (c : ℝ) : GoalTaskCfg :=
  { cfg with time_step_s := c * cfg.time_step_s }

/-- The energy term as claim C5 describes it: the squared-torque quantity
divided by the elapsed real time `time_step_s × num_action_repeat`
(a per-second quantity).  For comparison with `GoalTask.energyReward`. -/
noncomputable def energyRewardSpecClaim (cfg : GoalTaskCfg) (env : Env) : ℝ :=
  dotList env.motorTorques env.motorTorques / (cfg.time_step_s * cfg.num_action_repeat)

/-- The orientation term as claim C5 describes it: the
orientation-deviation quantity divided by the elapsed real time.  For
comparison with `GoalTask.calcRewardRotation`. -/
noncomputable def rotationRewardSpecClaim (cfg : GoalTaskCfg) (env : Env) : ℝ :=
  GoalTask.calcRewardRotation cfg env / (cfg.time_step_s * cfg.num_action_repeat)

/-- Termination as claim C3 words it: height below the fall threshold, or
the rotation-matrix up component below `0.6`, or — when contact checking
is enabled — an illegal contact combined with near-zero *horizontal*
speed.  For comparison with `GoalTask.done`. -/
noncomputable def doneSpecClaim (cfg : GoalTaskCfg) (st : GoalTaskState) (env : Env) : Prop :=
  env.rootPosSim.z < cfg.height_fall_coeff ∨ env.rotMatUp < 0.6 ∨
    (cfg.check_contact = true ∧
      (GoalTask.contactLoop1 env ∨ GoalTask.contactLoop2 env) ∧
      norm2 (GoalTask.speedVec cfg st).x (GoalTask.speedVec cfg st).y ≤ 0.05)

/-- Test input: a task state whose position delta realizes horizontal
speed `s` along the x axis (last position at the origin, current position
`s · dt` along x). -/
noncomputable def stateWithSpeed (cfg : GoalTaskCfg) (s : ℝ) : GoalTaskState :=
  { last_base_pos := ⟨0, 0, 0⟩, current_base_pos := ⟨s * cfg.dt, 0, 0⟩ }

/-- Concrete configuration for instances: unit target velocity, time step
`1/100`, action repeat `10` (so `dt = 1/10`), fall threshold `3/10`, no
`z_constrain`, no contact checking, no `z_penalty`. -/
noncomputable def cfgUnit : GoalTaskCfg :=
  GoalTaskCfg.init false 0 0 0 (1 / 100) 10 (3 / 10) (1 / 10) 0 1 false 10 false

/-- `cfgUnit` with `z_constrain = True`. -/
noncomputable def cfgZConstrain : GoalTaskCfg :=
  GoalTaskCfg.init true 0 0 0 (1 / 100) 10 (3 / 10) (1 / 10) 0 1 false 10 false

/-- `cfgUnit` with `check_contact = True`. -/
noncomputable def cfgContact : GoalTaskCfg :=
  GoalTaskCfg.init false 0 0 0 (1 / 100) 10 (3 / 10) (1 / 10) 0 1 true 10 false

/-- Concrete environment: healthy pose, no contacts, no torques. -/
noncomputable def envBase : Env :=
  { basePos := ⟨0, 0, 0⟩
    rootPosSim := ⟨0, 0, 1 / 2⟩
    baseQuat := ⟨0, 0, 0, 1⟩
    rotMatUp := 1
    motorTorques := []
    contacts := []
    ground := 0
    terrain := none
    footLinkIds := []
    goalPos := ⟨0, 0, 0⟩
    subgoals := []
    subgoalsAchieved := [] }

/-- Concrete environment: base pushed up to height `9/10`, otherwise
healthy. -/
noncomputable def envHigh : Env :=
  { envBase with rootPosSim := ⟨0, 0, 9 / 10⟩ }

/-- Concrete environment: one contact with a body (id 5) that is not the
ground (id 0). -/
noncomputable def envTouch : Env :=
  { envBase with contacts := [⟨5, 0⟩] }

/-- Concrete environment: one motor torque of `1`, base quaternion all
zero. -/
noncomputable def envTorque : Env :=
  { envBase with motorTorques := [1], baseQuat := ⟨0, 0, 0, 0⟩ }

/-- Concrete environment: one subgoal at the origin, already achieved. -/
noncomputable def envSubgoal : Env :=
  { envBase with subgoals := [⟨0, 0, 0⟩], subgoalsAchieved := [true] }

/-- Task state resting at the origin. -/
noncomputable def stZero : GoalTaskState := ⟨⟨0, 0, 0⟩, ⟨0, 0, 0⟩⟩

/-- Task state climbing straight up: position delta `(0, 0, 1/10)`, so at
`dt = 1/10` the speed vector is `(0, 0, 1)`. -/
noncomputable def stRise : GoalTaskState := ⟨⟨0, 0, 0⟩, ⟨0, 0, 1 / 10⟩⟩

/-- Concrete `params` dict for instances: `{"env": <ref 1>, "env_name": 0}`. -/
def pdW : PyDict := [("env", PyVal.vref 1), ("env_name", PyVal.vint 0)]

/-- Concrete `params["env"]` dict: `{"env_build": <ref 2>, "horizon": 1000}`. -/
def envDW : PyDict := [("env_build", PyVal.vref 2), ("horizon", PyVal.vint 1000)]

/-- Concrete `params["env"]["env_build"]` dict with the three optional
flags present and enabled. -/
def buildDW : PyDict :=
  [("curriculum", PyVal.vbool true), ("interpolation", PyVal.vbool true),
   ("fixed_delay_observation", PyVal.vbool true)]

/-- Concrete heap holding the three dicts at addresses 0, 1, 2. -/
def heapW : Heap := { mem := [(0, pdW), (1, envDW), (2, buildDW)], next := 3 }

/-! ## Shared helper lemmas -/

/-- A subgoal flag that is `True` is still `True` after one
`_calc_reward_subgoal` walk. -/
theorem GoalTask.subgoalWalk_flags_mono (pos : Vec3) :
    ∀ (ps : List Vec3) (as : List Bool) (i : ℕ),
      as.get? i = some true → (GoalTask.subgoalWalk pos ps as).2.get? i = some true := by
  intro ps
  induction ps with
  | nil => intro as i h; simpa [GoalTask.subgoalWalk] using h
  | cons p ps ih =>
    intro as i h
    cases as with
    | nil => simp at h
    | cons a as' =>
      cases i with
      | zero =>
        have ha : a = true := by simpa using h
        subst ha
        by_cases hd : norm3 (pos.sub p) < 1.0 <;> simp [GoalTask.subgoalWalk, hd]
      | succ i' =>
        have h' : as'.get? i' = some true := by simpa using h
        have hrest := ih as' i' h'
        by_cases hd : norm3 (pos.sub p) < 1.0 <;>
          cases a <;> simpa [GoalTask.subgoalWalk, hd] using hrest

/-- The total subgoal bonus is the sum of the per-subgoal bonuses. -/
theorem GoalTask.subgoalWalk_reward_sum (pos : Vec3) :
    ∀ (ps : List Vec3) (as : List Bool),
      (GoalTask.subgoalWalk pos ps as).1 =
        ((ps.zip as).map fun pa => GoalTask.perSubgoalBonus pos pa.1 pa.2).sum := by
  intro ps
  induction ps with
  | nil => intro as; simp [GoalTask.subgoalWalk]
  | cons p ps ih =>
    intro as
    cases as with
    | nil => simp [GoalTask.subgoalWalk]
    | cons a as' =>
      by_cases hd : norm3 (pos.sub p) < 1.0 <;>
        cases a <;> simp [GoalTask.subgoalWalk, GoalTask.perSubgoalBonus, hd, ih as'] <;> ring

/-- The root-velocity reward at a realized horizontal speed `s ≥ 0`:
the clipped quadratic `target_vel² - (min s target_vel - target_vel)²`
(the vertical term vanishes because the test state moves along x only). -/
theorem rootVelocity_at_speed (cfg : GoalTaskCfg) (s : ℝ)
    (hdt : cfg.dt ≠ 0) (hs : 0 ≤ s) :
    GoalTask.calcRewardRootVelocity cfg (stateWithSpeed cfg s) =
      cfg.target_vel ^ 2 - (min s cfg.target_vel - cfg.target_vel) ^ 2 := by
  unfold GoalTaskCfg.dt at hdt
  have hx : GoalTask.xSpeed cfg (stateWithSpeed cfg s) = s := by
    unfold GoalTask.xSpeed stateWithSpeed GoalTaskCfg.dt
    rw [sub_zero, mul_div_assoc, div_self hdt, mul_one]
  have hy : GoalTask.ySpeed cfg (stateWithSpeed cfg s) = 0 := by
    unfold GoalTask.ySpeed stateWithSpeed
    simp
  have hz : GoalTask.zSpeed cfg (stateWithSpeed cfg s) = 0 := by
    unfold GoalTask.zSpeed stateWithSpeed
    simp
  unfold GoalTask.calcRewardRootVelocity norm2
  rw [hx, hy, hz]
  rw [show (0 : ℝ) ^ 2 = 0 by ring, add_zero, Real.sqrt_sq hs]
  ring

/-- Setting a key makes it readable. -/
theorem dictGet_dictSet_self (d : PyDict) (k : String) (v : PyVal) :
    dictGet (dictSet d k v) k = some v := by
  induction d with
  | nil => simp [dictSet, dictGet]
  | cons p rest ih =>
    obtain ⟨k', v'⟩ := p
    by_cases hk : k' = k <;> simp [dictSet, dictGet, hk, ih]

/-- Setting a key leaves other keys unchanged. -/
theorem dictGet_dictSet_ne (d : PyDict) (k k' : String) (v : PyVal) (hk : k' ≠ k) :
    dictGet (dictSet d k v) k' = dictGet d k' := by
  induction d with
  | nil => simp [dictSet, dictGet, Ne.symm hk]
  | cons p rest ih =>
    obtain ⟨k₀, v₀⟩ := p
    by_cases h0 : k₀ = k
    · subst h0
      simp [dictSet, dictGet, Ne.symm hk]
    · by_cases h1 : k₀ = k' <;> simp [dictSet, dictGet, h0, h1, hk, ih]

/-- Key presence is unchanged by writes to other keys. -/
theorem dictHasKey_dictSet_ne (d : PyDict) (k k' : String) (v : PyVal) (hk : k' ≠ k) :
    dictHasKey (dictSet d k v) k' = dictHasKey d k' := by
  unfold dictHasKey
  rw [dictGet_dictSet_ne d k k' v hk]

/-- Writing an address then reading it back yields the written dict. -/
theorem assocRead_write_self (mem : List (ℕ × PyDict)) (a : ℕ) (d d₀ : PyDict)
    (h₀ : assocRead mem a = some d₀) :
    assocRead (assocWrite mem a d) a = some d := by
  induction mem with
  | nil => simp [assocRead] at h₀
  | cons p rest ih =>
    obtain ⟨b, d'⟩ := p
    by_cases hb : b = a
    · subst hb
      simp [assocRead, assocWrite]
    · simp only [assocRead, assocWrite, if_neg hb] at h₀ ⊢
      exact ih h₀

/-- Writing one address does not change reads of another. -/
theorem assocRead_write_ne (mem : List (ℕ × PyDict)) (a b : ℕ) (d : PyDict)
    (hb : b ≠ a) : assocRead (assocWrite mem a d) b = assocRead mem b := by
  induction mem with
  | nil => simp [assocRead, assocWrite]
  | cons p rest ih =>
    obtain ⟨c, d'⟩ := p
    by_cases hc : c = a
    · subst hc
      simp [assocRead, assocWrite, Ne.symm hb]
    · by_cases hcb : c = b <;> simp [assocRead, assocWrite, hc, hcb, hb, ih]

/-- A successful read exhibits a heap entry. -/
theorem assocRead_mem (mem : List (ℕ × PyDict)) (a : ℕ) (d : PyDict)
    (h : assocRead mem a = some d) : (a, d) ∈ mem := by
  induction mem with
  | nil => simp [assocRead] at h
  | cons p rest ih =>
    obtain ⟨b, d'⟩ := p
    by_cases hb : b = a
    · subst hb
      simp [assocRead] at h
      simp [h]
    · simp [assocRead, hb] at h
      exact List.mem_cons_of_mem _ (ih h)

/-- Reading right after allocation returns the allocated dict. -/
theorem Heap.read_alloc_self (h : Heap) (d : PyDict) :
    (h.alloc d).1.read h.next = some d := by
  simp [Heap.alloc, Heap.read, assocRead]

/-- Allocation does not change other addresses. -/
theorem Heap.read_alloc_ne (h : Heap) (d : PyDict) (a : ℕ) (ha : a ≠ h.next) :
    (h.alloc d).1.read a = h.read a := by
  simp [Heap.alloc, Heap.read, assocRead, Ne.symm ha]

/-- Reading an address just written returns the written dict (the address
must exist, which a successful prior read witnesses). -/
theorem Heap.read_write_self (h : Heap) (a : ℕ) (d d₀ : PyDict)
    (h₀ : h.read a = some d₀) : (h.write a d).read a = some d :=
  assocRead_write_self h.mem a d d₀ h₀

/-- Writing one address does not change another. -/
theorem Heap.read_write_ne (h : Heap) (a b : ℕ) (d : PyDict) (hb : b ≠ a) :
    (h.write a d).read b = h.read b :=
  assocRead_write_ne h.mem a b d hb

/-- A successfully read address lies below `next` in a well-formed heap. -/
theorem Heap.read_lt_next (h : Heap) (hWF : h.WF) (a : ℕ) (d : PyDict)
    (ha : h.read a = some d) : a < h.next :=
  hWF.1 (a, d) (assocRead_mem h.mem a d ha)

/-- `getItem` through a successful read. -/
theorem Heap.getItem_eq (h : Heap) (a : ℕ) (k : String) (d : PyDict)
    (ha : h.read a = some d) : h.getItem a k = dictGet d k := by
  simp [Heap.getItem, ha]

/-- `setItem` through a successful read. -/
theorem Heap.setItem_eq (h : Heap) (a : ℕ) (k : String) (v : PyVal) (d : PyDict)
    (ha : h.read a = some d) :
    h.setItem a k v = some (h.write a (dictSet d k v)) := by
  simp [Heap.setItem, ha]

/-- Unfolded characterization of `GoalTask.done` as a plain disjunction. -/
theorem GoalTask.done_characterization (cfg : GoalTaskCfg) (st : GoalTaskState) (env : Env) :
    GoalTask.done cfg st env ↔
      env.rootPosSim.z < cfg.height_fall_coeff ∨
      (cfg.z_constrain = true ∧ 0.8 < env.rootPosSim.z) ∨
      env.rotMatUp < 0.6 ∨
      (cfg.check_contact = true ∧
        (GoalTask.contactLoop1 env ∨ GoalTask.contactLoop2 env) ∧
        norm3 (GoalTask.speedVec cfg st) ≤ 0.05) := by
  unfold GoalTask.done
  cases cfg.z_constrain <;> cases hc : cfg.check_contact <;> simp <;> tauto

/-- `runOps` never touches the `_robot` attribute. -/
theorem ForceSensor.robot_runOps (ops : List SensorOp) (s : ForceSensor) :
    (s.runOps ops).robot = s.robot := by
  induction ops generalizing s with
  | nil => rfl
  | cons op ops ih => cases op with | onReset e => exact ih (s.onReset e)

/-! ## Claim theorems -/

/-- C9: for every `vec_env_nums` and `proc_nums` argument, including
values below 2, the experiment driver builds the evaluation environment
with at least 2 parallel instances and at least 2 worker processes; a
request below 2 is silently raised to 2 (`max(2, ·)`), and a request of at
least 2 is passed through unchanged. -/
theorem experiment_eval_parallelism_min_two (v p : ℤ) :
    2 ≤ evalVecEnvNums v ∧ 2 ≤ evalProcNums p ∧
    (v < 2 → evalVecEnvNums v = 2) ∧ (2 ≤ v → evalVecEnvNums v = v) ∧
    (p < 2 → evalProcNums p = 2) ∧ (2 ≤ p → evalProcNums p = p) := by
  unfold evalVecEnvNums evalProcNums
  exact ⟨le_max_left _ _, le_max_left _ _,
    fun h => max_eq_left h.le, fun h => max_eq_right h,
    fun h => max_eq_left h.le, fun h => max_eq_right h⟩

theorem experiment_eval_parallelism_min_two_witness :
    (1 : ℤ) < 2 ∧ (0 : ℤ) < 2 ∧ evalVecEnvNums 1 = 2 ∧ evalProcNums 0 = 2 :=
  ⟨by decide, by decide,
    (experiment_eval_parallelism_min_two 1 0).2.2.1 (by decide),
    (experiment_eval_parallelism_min_two 1 0).2.2.2.2.1 (by decide)⟩

/-- C8: every freshly constructed sensor has its environment binding
initialized to `None`, and pulling an observation before `on_reset` fails
with a binding error (an attribute access on the unbound `None`
environment) instead of returning an observation. -/
theorem sensors_unbound_before_reset (n m : ℕ) :
    (LastActionSensor.init n).env = none ∧
    (LastActionSensor.init n).getObservation = Except.error SensorError.bindingError ∧
    (GoalPosSensor.init m).env = none ∧
    (GoalPosSensor.init m).getObservation = Except.error SensorError.bindingError ∧
    ForceSensor.init.env = none ∧
    ForceSensor.init.getObservation = Except.error SensorError.bindingError :=
  ⟨rfl, rfl, rfl, rfl, rfl, rfl⟩

/-- C7: no `ForceSensor` operation ever assigns `self._robot`, so after
any operation history — in particular right after `on_reset(env)` — the
attribute is still absent, `_get_observation` raises `AttributeError`,
and the accessor can never return a value. -/
theorem force_sensor_observation_never_returns (ops : List SensorOp) (e : SensorEnv) :
    (ForceSensor.init.runOps ops).robot = none ∧
    ((ForceSensor.init.runOps ops).onReset e).getObservation =
      Except.error SensorError.missingAttribute ∧
    ∀ v, (ForceSensor.init.runOps ops).getObservation ≠ Except.ok v := by
  have hrobot : (ForceSensor.init.runOps ops).robot = none :=
    ForceSensor.robot_runOps ops ForceSensor.init
  refine ⟨hrobot, ?_, ?_⟩
  · show (ForceSensor.getObservation _) = _
    unfold ForceSensor.getObservation
    simp [ForceSensor.onReset, hrobot]
  · intro v
    unfold ForceSensor.getObservation
    rcases henv : (ForceSensor.init.runOps ops).env with _ | e'
    · simp
    · simp [hrobot]

/-- C6: `ForceSensor` declares observation shape `(24,)` at construction,
while the concatenation its observation accessor builds — 4 feet × 3 axes
of contact force — has 12 components, so the declared shape and the
actual output length disagree for every bound environment. -/
theorem force_sensor_shape_mismatch :
    ForceSensor.init.shape = 24 ∧
    (∀ (e : SensorEnv) (r : Robot),
      (forceConcat e r ForceSensor.init.feet_id).length = 12) ∧
    ForceSensor.init.shape ≠ 12 :=
  ⟨rfl, fun _ _ => rfl, by decide⟩

/-- C2: `reward` is exactly the weighted sum of the five terms — goal
progress times `goal_coeff`, the forward-velocity term times
`move_forward_coeff`, the squared-motor-torque energy term
(`τ·τ · time_step`) times `energy_weight`, the orientation-deviation term
times minus `orientation_penalty`, and the constant `alive_reward` — plus
the subgoal bonus when `subgoal` is enabled, plus `fall_reward` exactly
when `done` holds at this step. -/
theorem reward_is_weighted_sum (cfg : GoalTaskCfg) (st : GoalTaskState) (env : Env) :
    (GoalTask.reward cfg st env).1 =
      GoalTask.calcRewardGoalDist cfg st env * cfg.goal_coeff +
      GoalTask.calcRewardRootVelocity cfg st * cfg.move_forward_coeff +
      (dotList env.motorTorques env.motorTorques * cfg.time_step_s) * cfg.energy_weight -
      cfg.orientation_penalty * GoalTask.calcRewardRotation cfg env +
      cfg.alive_reward +
      (if cfg.subgoal then (GoalTask.calcRewardSubgoal st env).1 else 0) +
      (if GoalTask.done cfg st env then cfg.fall_reward else 0) := by
  unfold GoalTask.reward GoalTask.energyReward
  split_ifs <;> ring

/-- C4: once a subgoal's achieved flag is `True`, `_calc_reward_subgoal`
keeps it `True` and `reward` (the only task operation that writes the
flags) keeps it `True`; the total bonus is the sum of the per-subgoal
bonuses, and the per-subgoal bonus of an already-achieved subgoal is `0`,
so every subsequent call while the base stays within radius `1.0` of that
subgoal contributes nothing for it. -/
theorem subgoal_bonus_at_most_once (cfg : GoalTaskCfg) (st : GoalTaskState) (env : Env)
    (i : ℕ) (h : env.subgoalsAchieved.get? i = some true) :
    (GoalTask.calcRewardSubgoal st env).2.get? i = some true ∧
    (GoalTask.reward cfg st env).2.subgoalsAchieved.get? i = some true ∧
    (GoalTask.calcRewardSubgoal st env).1 =
      ((env.subgoals.zip env.subgoalsAchieved).map
        fun pa => GoalTask.perSubgoalBonus st.current_base_pos pa.1 pa.2).sum ∧
    ∀ p, GoalTask.perSubgoalBonus st.current_base_pos p true = 0 := by
  have h1 : (GoalTask.calcRewardSubgoal st env).2.get? i = some true :=
    GoalTask.subgoalWalk_flags_mono st.current_base_pos env.subgoals env.subgoalsAchieved i h
  refine ⟨h1, ?_, GoalTask.subgoalWalk_reward_sum st.current_base_pos env.subgoals
    env.subgoalsAchieved, fun p => by simp [GoalTask.perSubgoalBonus]⟩
  unfold GoalTask.reward
  by_cases hs : cfg.subgoal
  · simpa [hs] using h1
  · simpa [hs] using h

theorem subgoal_bonus_at_most_once_witness :
    envSubgoal.subgoalsAchieved.get? 0 = some true ∧
    (GoalTask.calcRewardSubgoal stZero envSubgoal).2.get? 0 = some true ∧
    (GoalTask.reward cfgUnit stZero envSubgoal).2.subgoalsAchieved.get? 0 = some true :=
  ⟨rfl, (subgoal_bonus_at_most_once cfgUnit stZero envSubgoal 0 rfl).1,
    (subgoal_bonus_at_most_once cfgUnit stZero envSubgoal 0 rfl).2.1⟩

/-- C5 counterexample: with time step `1/100` and action repeat `10`, a
unit motor torque and an all-zero base quaternion, the code's energy term
is `1/100` while its claimed per-second form is `10`, and the code's
orientation term is `1` while its claimed per-second form is `10`: the
energy and orientation terms are not divided by the elapsed real time. -/
theorem reward_terms_not_per_second :
    GoalTask.energyReward cfgUnit envTorque ≠ energyRewardSpecClaim cfgUnit envTorque ∧
    GoalTask.calcRewardRotation cfgUnit envTorque ≠ rotationRewardSpecClaim cfgUnit envTorque := by
  have hrot : GoalTask.calcRewardRotation cfgUnit envTorque = 1 := by
    simp [GoalTask.calcRewardRotation, cfgUnit, GoalTaskCfg.init, envTorque, envBase]
  constructor
  · simp only [GoalTask.energyReward, energyRewardSpecClaim, cfgUnit, GoalTaskCfg.init,
      envTorque, envBase, dotList]
    norm_num
  · rw [ne_eq, hrot, rotationRewardSpecClaim, hrot]
    simp only [cfgUnit, GoalTaskCfg.init]
    norm_num

/-- C5 amended: only the goal-distance term and the three speed estimates
inside the velocity term are divided by the elapsed real time
`time_step_s × num_action_repeat`; scaling the time step by `c` scales
them by `1/c`, while the energy term scales *linearly* with the time step
(it is multiplied by `time_step_s`, not divided) and the orientation term
does not depend on the time step at all. -/
theorem reward_terms_time_scaling (cfg : GoalTaskCfg) (st : GoalTaskState) (env : Env)
    (c : ℝ) :
    GoalTask.calcRewardGoalDist cfg st env =
      (norm3 (env.goalPos.sub st.last_base_pos) - norm3 (env.goalPos.sub st.current_base_pos)) /
        (cfg.time_step_s * cfg.num_action_repeat) ∧
    GoalTask.energyReward cfg env =
      dotList env.motorTorques env.motorTorques * cfg.time_step_s ∧
    GoalTask.calcRewardGoalDist (cfg.scaleTime c) st env =
      GoalTask.calcRewardGoalDist cfg st env / c ∧
    GoalTask.xSpeed (cfg.scaleTime c) st = GoalTask.xSpeed cfg st / c ∧
    GoalTask.ySpeed (cfg.scaleTime c) st = GoalTask.ySpeed cfg st / c ∧
    GoalTask.zSpeed (cfg.scaleTime c) st = GoalTask.zSpeed cfg st / c ∧
    GoalTask.energyReward (cfg.scaleTime c) env = c * GoalTask.energyReward cfg env ∧
    GoalTask.calcRewardRotation (cfg.scaleTime c) env =
      GoalTask.calcRewardRotation cfg env := by
  refine ⟨rfl, rfl, ?_, ?_, ?_, ?_, ?_, rfl⟩ <;>
    simp only [GoalTask.calcRewardGoalDist, GoalTask.xSpeed, GoalTask.ySpeed,
      GoalTask.zSpeed, GoalTask.energyReward, GoalTaskCfg.scaleTime, GoalTaskCfg.dt] <;>
    ring

/-- C1 counterexample: with unit target velocity (`cfgUnit`), the reward
at realized speed `3/2` (overshoot by `1/2`) equals the reward at the
target speed `1`, because the speed is clipped to the target before the
quadratic — so the claimed strict decrease on the overshoot side fails. -/
theorem root_velocity_overshoot_ties :
    ¬ (GoalTask.calcRewardRootVelocity cfgUnit (stateWithSpeed cfgUnit 1) >
        GoalTask.calcRewardRootVelocity cfgUnit (stateWithSpeed cfgUnit (3 / 2))) := by
  have hdt : cfgUnit.dt ≠ 0 := by
    unfold cfgUnit GoalTaskCfg.init GoalTaskCfg.dt
    norm_num
  have h1 := rootVelocity_at_speed cfgUnit 1 hdt (by norm_num)
  have h2 := rootVelocity_at_speed cfgUnit (3 / 2) hdt (by norm_num)
  rw [h1, h2, show cfgUnit.target_vel = 1 from rfl, min_self,
    min_eq_right (by norm_num : (1 : ℝ) ≤ 3 / 2)]
  norm_num

/-- C1 amended: for a positive target velocity with `z_penalty = 0`, the
forward-velocity reward as a function of the realized horizontal speed is
maximal at `target_vel` and strictly decreases on the undershoot side
(`reward(target_vel) > reward(target_vel - δ)` for `0 < δ < target_vel`),
but on the overshoot side the clip makes it *constant*:
`reward(target_vel + δ) = reward(target_vel)`. -/
theorem root_velocity_peak_at_target (cfg : GoalTaskCfg) (δ : ℝ)
    (hz : cfg.z_penalty = 0) (hT : 0 < cfg.target_vel) (hδ : 0 < δ)
    (hδT : δ < cfg.target_vel) (hdt : cfg.dt ≠ 0) :
    GoalTask.calcRewardRootVelocity cfg (stateWithSpeed cfg cfg.target_vel) >
      GoalTask.calcRewardRootVelocity cfg (stateWithSpeed cfg (cfg.target_vel - δ)) ∧
    GoalTask.calcRewardRootVelocity cfg (stateWithSpeed cfg (cfg.target_vel + δ)) =
      GoalTask.calcRewardRootVelocity cfg (stateWithSpeed cfg cfg.target_vel) := by
  have h1 := rootVelocity_at_speed cfg cfg.target_vel hdt hT.le
  have h2 := rootVelocity_at_speed cfg (cfg.target_vel - δ) hdt (by linarith)
  have h3 := rootVelocity_at_speed cfg (cfg.target_vel + δ) hdt (by linarith)
  rw [h1, h2, h3, min_self, min_eq_left (by linarith : cfg.target_vel - δ ≤ cfg.target_vel),
    min_eq_right (by linarith : cfg.target_vel ≤ cfg.target_vel + δ)]
  have hδ2 : 0 < δ ^ 2 := by positivity
  constructor
  · nlinarith
  · ring

theorem root_velocity_peak_at_target_witness :
    cfgUnit.z_penalty = 0 ∧ 0 < cfgUnit.target_vel ∧ 0 < (1 / 2 : ℝ) ∧
    (1 / 2 : ℝ) < cfgUnit.target_vel ∧ cfgUnit.dt ≠ 0 ∧
    (GoalTask.calcRewardRootVelocity cfgUnit (stateWithSpeed cfgUnit cfgUnit.target_vel) >
      GoalTask.calcRewardRootVelocity cfgUnit
        (stateWithSpeed cfgUnit (cfgUnit.target_vel - 1 / 2)) ∧
    GoalTask.calcRewardRootVelocity cfgUnit
        (stateWithSpeed cfgUnit (cfgUnit.target_vel + 1 / 2)) =
      GoalTask.calcRewardRootVelocity cfgUnit (stateWithSpeed cfgUnit cfgUnit.target_vel)) :=
  ⟨rfl, by norm_num [cfgUnit, GoalTaskCfg.init], by norm_num,
    by norm_num [cfgUnit, GoalTaskCfg.init], by norm_num [cfgUnit, GoalTaskCfg.init, GoalTaskCfg.dt],
    root_velocity_peak_at_target cfgUnit (1 / 2) rfl
      (by norm_num [cfgUnit, GoalTaskCfg.init]) (by norm_num)
      (by norm_num [cfgUnit, GoalTaskCfg.init])
      (by norm_num [cfgUnit, GoalTaskCfg.init, GoalTaskCfg.dt])⟩

/-- C3 counterexample: (i) with `z_constrain` enabled the task also
terminates when the base is too high (height `9/10 > 0.8`) although none
of the claim's conditions holds; (ii) with contact checking enabled, an
illegal contact at zero horizontal speed but unit vertical speed
satisfies the claim's condition, yet the code does not terminate because
it tests the full 3-D speed norm, not the horizontal speed. -/
theorem done_neq_claimed_conditions :
    (GoalTask.done cfgZConstrain stZero envHigh ∧
      ¬ doneSpecClaim cfgZConstrain stZero envHigh) ∧
    (doneSpecClaim cfgContact stRise envTouch ∧
      ¬ GoalTask.done cfgContact stRise envTouch) := by
  have hdtC : cfgContact.dt = 1 / 10 := by
    unfold cfgContact GoalTaskCfg.init GoalTaskCfg.dt
    norm_num
  refine ⟨⟨?_, ?_⟩, ⟨?_, ?_⟩⟩
  · unfold GoalTask.done cfgZConstrain GoalTaskCfg.init envHigh envBase
    norm_num
  · unfold doneSpecClaim cfgZConstrain GoalTaskCfg.init envHigh envBase
    norm_num
  · unfold doneSpecClaim
    refine Or.inr (Or.inr ⟨rfl, Or.inr ⟨⟨5, 0⟩, ?_, by norm_num [envTouch, envBase]⟩, ?_⟩)
    · show Contact.mk 5 0 ∈ envTouch.contacts
      simp [envTouch, envBase]
    · have hx : (GoalTask.speedVec cfgContact stRise).x = 0 := by
        simp [GoalTask.speedVec, stRise, hdtC]
      have hy : (GoalTask.speedVec cfgContact stRise).y = 0 := by
        simp [GoalTask.speedVec, stRise, hdtC]
      rw [hx, hy]
      unfold norm2
      rw [show (0 : ℝ) ^ 2 + 0 ^ 2 = 0 by ring, Real.sqrt_zero]
      norm_num
  · have hn : norm3 (GoalTask.speedVec cfgContact stRise) = 1 := by
      have hx : (GoalTask.speedVec cfgContact stRise).x = 0 := by
        simp [GoalTask.speedVec, stRise, hdtC]
      have hy : (GoalTask.speedVec cfgContact stRise).y = 0 := by
        simp [GoalTask.speedVec, stRise, hdtC]
      have hz : (GoalTask.speedVec cfgContact stRise).z = 1 := by
        simp [GoalTask.speedVec, stRise, hdtC]
      unfold norm3
      rw [hx, hy, hz]
      rw [show (0 : ℝ) ^ 2 + 0 ^ 2 + 1 ^ 2 = 1 by ring, Real.sqrt_one]
    rw [GoalTask.done_characterization]
    simp only [hn]
    norm_num [cfgContact, GoalTaskCfg.init, envTouch, envBase]

/-- C3 amended: `done` holds exactly when the base height is below
`height_fall_coeff`, or — with `z_constrain` enabled — above `0.8`, or
the rotation-matrix up component is below `0.6`, or — with contact
checking enabled — one of the two contact conditions holds and the full
3-D speed norm derived from the position delta is at most `0.05`. -/
theorem done_iff_conditions (cfg : GoalTaskCfg) (st : GoalTaskState) (env : Env) :
    GoalTask.done cfg st env ↔
      env.rootPosSim.z < cfg.height_fall_coeff ∨
      (cfg.z_constrain = true ∧ 0.8 < env.rootPosSim.z) ∨
      env.rotMatUp < 0.6 ∨
      (cfg.check_contact = true ∧
        (GoalTask.contactLoop1 env ∨ GoalTask.contactLoop2 env) ∧
        norm3 (GoalTask.speedVec cfg st) ≤ 0.05) :=
  GoalTask.done_characterization cfg st env

/-- C10: `params.copy()` is a shallow copy, so `eval_params["env"]` is the
very same dict object as `params["env"]`, and the evaluation-setup
mutations `experiment` performs through `eval_params` are visible through
`params`: afterwards, reading through `params` shows `horizon = 2000`,
`reset_frame_idx_each_step = True`, and `curriculum`, `interpolation` and
`fixed_delay_observation` (initially present) all `False` — the training
configuration mapping is not left unchanged. -/
theorem eval_params_shallow_copy_mutates_params
    (h : Heap) (paramsA envA buildA : ℕ) (pd envD buildD : PyDict)
    (hWF : h.WF)
    (hp : h.read paramsA = some pd)
    (hpe : dictGet pd "env" = some (PyVal.vref envA))
    (he : h.read envA = some envD)
    (heb : dictGet envD "env_build" = some (PyVal.vref buildA))
    (hb : h.read buildA = some buildD)
    (hne : envA ≠ buildA) (hne2 : paramsA ≠ envA) (hne3 : paramsA ≠ buildA)
    (hgii : dictGet buildD "get_image_interval" = none)
    (hcur : dictHasKey buildD "curriculum" = true)
    (hinterp : dictHasKey buildD "interpolation" = true)
    (hfixed : dictHasKey buildD "fixed_delay_observation" = true) :
    h.copyDict paramsA = some (h.alloc pd) ∧
    (h.alloc pd).1.getItem (h.alloc pd).2 "env" = some (PyVal.vref envA) ∧
    ∃ h₂, experimentEvalSetup (h.alloc pd).1 (h.alloc pd).2 = some h₂ ∧
      h₂.getItem paramsA "env" = some (PyVal.vref envA) ∧
      h₂.getItem envA "horizon" = some (PyVal.vint 2000) ∧
      h₂.getItem envA "env_build" = some (PyVal.vref buildA) ∧
      h₂.getItem buildA "reset_frame_idx_each_step" = some (PyVal.vbool true) ∧
      h₂.getItem buildA "curriculum" = some (PyVal.vbool false) ∧
      h₂.getItem buildA "interpolation" = some (PyVal.vbool false) ∧
      h₂.getItem buildA "fixed_delay_observation" = some (PyVal.vbool false) := by
  have hpN : paramsA < h.next := h.read_lt_next hWF _ _ hp
  have heN : envA < h.next := h.read_lt_next hWF _ _ he
  have hbN : buildA < h.next := h.read_lt_next hWF _ _ hb
  have hNe : envA ≠ h.next := by omega
  have hNb : buildA ≠ h.next := by omega
  have hNp : paramsA ≠ h.next := by omega
  have halloc2 : (h.alloc pd).2 = h.next := rfl
  set h1 := (h.alloc pd).1 with hh1
  have hr1p : h1.read paramsA = some pd := by
    rw [hh1, Heap.read_alloc_ne h pd paramsA hNp]; exact hp
  have hr1e : h1.read envA = some envD := by
    rw [hh1, Heap.read_alloc_ne h pd envA hNe]; exact he
  have hr1b : h1.read buildA = some buildD := by
    rw [hh1, Heap.read_alloc_ne h pd buildA hNb]; exact hb
  have hr1N : h1.read h.next = some pd := by rw [hh1]; exact Heap.read_alloc_self h pd
  -- statement 1: build["reset_frame_idx_each_step"] = True
  set bD1 := dictSet buildD "reset_frame_idx_each_step" (PyVal.vbool true) with hbD1def
  set g2 := h1.write buildA bD1 with hg2
  have hstep1 : h1.setItem buildA "reset_frame_idx_each_step" (PyVal.vbool true) = some g2 :=
    Heap.setItem_eq h1 buildA _ _ buildD hr1b
  have hr2e : g2.read envA = some envD := by
    rw [hg2, Heap.read_write_ne h1 buildA envA bD1 hne]; exact hr1e
  have hr2b : g2.read buildA = some bD1 := Heap.read_write_self h1 buildA bD1 buildD hr1b
  have hr2p : g2.read paramsA = some pd := by
    rw [hg2, Heap.read_write_ne h1 buildA paramsA bD1 hne3]; exact hr1p
  -- statement 2: env["horizon"] = 2000
  set eD1 := dictSet envD "horizon" (PyVal.vint 2000) with heD1def
  set g3 := g2.write envA eD1 with hg3
  have hstep2 : g2.setItem envA "horizon" (PyVal.vint 2000) = some g3 :=
    Heap.setItem_eq g2 envA _ _ envD hr2e
  have hr3b : g3.read buildA = some bD1 := by
    rw [hg3, Heap.read_write_ne g2 envA buildA eD1 (Ne.symm hne)]; exact hr2b
  have hr3e : g3.read envA = some eD1 := Heap.read_write_self g2 envA eD1 envD hr2e
  have hr3p : g3.read paramsA = some pd := by
    rw [hg3, Heap.read_write_ne g2 envA paramsA eD1 hne2]; exact hr2p
  -- the get_image_interval branch is skipped: key absent
  have hgiib1 : dictGet bD1 "get_image_interval" = none := by
    rw [hbD1def, dictGet_dictSet_ne buildD _ _ _ (by decide)]; exact hgii
  have hbranch : imageIntervalBranch g3 buildA = some g3 := by
    unfold imageIntervalBranch
    rw [Heap.getItem_eq g3 buildA _ bD1 hr3b, hgiib1]
  -- statement: build["curriculum"] = False
  set bD2 := dictSet bD1 "curriculum" (PyVal.vbool false) with hbD2def
  set g4 := g3.write buildA bD2 with hg4
  have hcur1 : dictHasKey bD1 "curriculum" = true := by
    rw [hbD1def, dictHasKey_dictSet_ne buildD _ _ _ (by decide)]; exact hcur
  have hdis1 : disableIfPresent g3 buildA "curriculum" = some g4 := by
    unfold disableIfPresent
    rw [hr3b]
    simp only [Option.getD_some, hcur1, if_true]
    exact Heap.setItem_eq g3 buildA _ _ bD1 hr3b
  have hr4b : g4.read buildA = some bD2 := Heap.read_write_self g3 buildA bD2 bD1 hr3b
  have hr4e : g4.read envA = some eD1 := by
    rw [hg4, Heap.read_write_ne g3 buildA envA bD2 hne]; exact hr3e
  have hr4p : g4.read paramsA = some pd := by
    rw [hg4, Heap.read_write_ne g3 buildA paramsA bD2 hne3]; exact hr3p
  -- statement: build["interpolation"] = False
  set bD3 := dictSet bD2 "interpolation" (PyVal.vbool false) with hbD3def
  set g5 := g4.write buildA bD3 with hg5
  have hinterp1 : dictHasKey bD2 "interpolation" = true := by
    rw [hbD2def, dictHasKey_dictSet_ne bD1 _ _ _ (by decide), hbD1def,
      dictHasKey_dictSet_ne buildD _ _ _ (by decide)]
    exact hinterp
  have hdis2 : disableIfPresent g4 buildA "interpolation" = some g5 := by
    unfold disableIfPresent
    rw [hr4b]
    simp only [Option.getD_some, hinterp1, if_true]
    exact Heap.setItem_eq g4 buildA _ _ bD2 hr4b
  have hr5b : g5.read buildA = some bD3 := Heap.read_write_self g4 buildA bD3 bD2 hr4b
  have hr5e : g5.read envA = some eD1 := by
    rw [hg5, Heap.read_write_ne g4 buildA envA bD3 hne]; exact hr4e
  have hr5p : g5.read paramsA = some pd := by
    rw [hg5, Heap.read_write_ne g4 buildA paramsA bD3 hne3]; exact hr4p
  -- statement: build["fixed_delay_observation"] = False
  set bD4 := dictSet bD3 "fixed_delay_observation" (PyVal.vbool false) with hbD4def
  set g6 := g5.write buildA bD4 with hg6
  have hfixed1 : dictHasKey bD3 "fixed_delay_observation" = true := by
    rw [hbD3def, dictHasKey_dictSet_ne bD2 _ _ _ (by decide), hbD2def,
      dictHasKey_dictSet_ne bD1 _ _ _ (by decide), hbD1def,
      dictHasKey_dictSet_ne buildD _ _ _ (by decide)]
    exact hfixed
  have hdis3 : disableIfPresent g5 buildA "fixed_delay_observation" = some g6 := by
    unfold disableIfPresent
    rw [hr5b]
    simp only [Option.getD_some, hfixed1, if_true]
    exact Heap.setItem_eq g5 buildA _ _ bD3 hr5b
  have hr6b : g6.read buildA = some bD4 := Heap.read_write_self g5 buildA bD4 bD3 hr5b
  have hr6e : g6.read envA = some eD1 := by
    rw [hg6, Heap.read_write_ne g5 buildA envA bD4 hne]; exact hr5e
  have hr6p : g6.read paramsA = some pd := by
    rw [hg6, Heap.read_write_ne g5 buildA paramsA bD4 hne3]; exact hr5p
  -- the lookups `eval_params["env"]` and `["env_build"]`
  have hRef1 : h1.getRefItem h.next "env" = some envA := by
    unfold Heap.getRefItem
    rw [Heap.getItem_eq h1 h.next _ pd hr1N, hpe]
  have hRef2 : h1.getRefItem envA "env_build" = some buildA := by
    unfold Heap.getRefItem
    rw [Heap.getItem_eq h1 envA _ envD hr1e, heb]
  have hsetup : experimentEvalSetup h1 (h.alloc pd).2 = some g6 := by
    rw [halloc2]
    unfold experimentEvalSetup
    simp only [hRef1, hRef2, hstep1, hstep2, hbranch, hdis1, hdis2, hdis3]
  refine ⟨by simp [Heap.copyDict, hp], ?_, g6, hsetup, ?_, ?_, ?_, ?_, ?_, ?_, ?_⟩
  · rw [halloc2, Heap.getItem_eq h1 h.next "env" pd hr1N]; exact hpe
  · rw [Heap.getItem_eq g6 paramsA "env" pd hr6p]; exact hpe
  · rw [Heap.getItem_eq g6 envA "horizon" eD1 hr6e, heD1def, dictGet_dictSet_self]
  · rw [Heap.getItem_eq g6 envA "env_build" eD1 hr6e, heD1def,
      dictGet_dictSet_ne envD _ _ _ (by decide)]
    exact heb
  · rw [Heap.getItem_eq g6 buildA "reset_frame_idx_each_step" bD4 hr6b, hbD4def,
      dictGet_dictSet_ne bD3 _ _ _ (by decide), hbD3def,
      dictGet_dictSet_ne bD2 _ _ _ (by decide), hbD2def,
      dictGet_dictSet_ne bD1 _ _ _ (by decide), hbD1def, dictGet_dictSet_self]
  · rw [Heap.getItem_eq g6 buildA "curriculum" bD4 hr6b, hbD4def,
      dictGet_dictSet_ne bD3 _ _ _ (by decide), hbD3def,
      dictGet_dictSet_ne bD2 _ _ _ (by decide), hbD2def, dictGet_dictSet_self]
  · rw [Heap.getItem_eq g6 buildA "interpolation" bD4 hr6b, hbD4def,
      dictGet_dictSet_ne bD3 _ _ _ (by decide), hbD3def, dictGet_dictSet_self]
  · rw [Heap.getItem_eq g6 buildA "fixed_delay_observation" bD4 hr6b, hbD4def,
      dictGet_dictSet_self]

theorem eval_params_shallow_copy_mutates_params_witness :
    heapW.WF ∧
    (∃ h₂, experimentEvalSetup (heapW.alloc pdW).1 (heapW.alloc pdW).2 = some h₂ ∧
      h₂.getItem 0 "env" = some (PyVal.vref 1) ∧
      h₂.getItem 1 "horizon" = some (PyVal.vint 2000) ∧
      h₂.getItem 1 "env_build" = some (PyVal.vref 2) ∧
      h₂.getItem 2 "reset_frame_idx_each_step" = some (PyVal.vbool true) ∧
      h₂.getItem 2 "curriculum" = some (PyVal.vbool false) ∧
      h₂.getItem 2 "interpolation" = some (PyVal.vbool false) ∧
      h₂.getItem 2 "fixed_delay_observation" = some (PyVal.vbool false)) :=
  ⟨by unfold Heap.WF; decide,
    (eval_params_shallow_copy_mutates_params heapW 0 1 2 pdW envDW buildDW
      (by unfold Heap.WF; decide) (by decide) (by decide) (by decide) (by decide) (by decide)
      (by decide) (by decide) (by decide) (by decide) (by decide) (by decide)
      (by decide)).2.2⟩

end PolicyDissect
